import Mathlib

/-!
Verification of the patchpd generation → validation → repair pipeline.

Shallow embedding of `src/lib/openai.ts` (generatePdPatch with its structural
validator, response splitter and bounded retry loop) and of the relevant slices
of `src/App.tsx` (`handleGenerate`, `handleRegenerate`) and `src/types.ts`
(`PdPatch`).

Conventions of the embedding:
- JavaScript strings are Lean `String`s; scanning functions work on `List Char`.
- JavaScript `String.includes` is modelled by `hasInfix` / `includes`.
- The two regex operations of the source (`match(/#X connect \d+ \d+/g)`,
  `match(/#X connect/g)`, `split(/---PATCH---|---EXPLANATION---/)`,
  `replace(/```pd\n?|\n?```/g, '')`, `replace('has','')`) are embedded as
  explicit left-to-right non-overlapping scanners with the same semantics.
- Recursive scanners take an explicit fuel argument initialized to the input
  length (one character is consumed per step, so the fuel is never exhausted);
  this keeps every definition structurally recursive, hence kernel-evaluable.
- The completion client (`openai.chat.completions.create` raced against the
  30 s timer) is an oracle `Nat → Except Err String` giving, per retry index,
  either the raw completion text or the error the `try` block would catch.
  `localStorage.getItem('openai_api_key')` is the `Option String` argument
  (the store is not mutated during a call, so all recursive reads agree).
- Thrown JS `Error` values are `Err` records (message plus optional `status`).
- `GenOut` additionally records the trace of completion-client invocations
  (`calls`, by retry index) and of validator runs (`reports`), so that
  claims about call counts and validator purity are statable.
-/

namespace PatchPd

/-- A thrown JS `Error`: its `message` and (for OpenAI API errors) `status`. -/
structure Err where
  message : String
  status : Option Nat
deriving Repr, DecidableEq

/-- `hasInfix l pat`: does `pat` occur contiguously inside `l`?
Models JS `String.prototype.includes` (scanning every start position). -/
def hasInfix : List Char → List Char → Bool
  | [], pat => pat.isEmpty
  | l@(_ :: t), pat => pat.isPrefixOf l || hasInfix t pat

/-- JS `s.includes(pat)`. -/
def includes (s pat : String) : Bool := hasInfix s.data pat.data

/-- JS `s.startsWith(pre)`. -/
def jsStartsWith (s pre : String) : Bool := pre.data.isPrefixOf s.data

/-- The whitespace characters removed by JS `String.prototype.trim`
(ASCII fragment; the source never produces the exotic Unicode spaces). -/
def isJsSpace (c : Char) : Bool :=
  c == ' ' || c == '\t' || c == '\n' || c == '\r' || c == '\x0b' || c == '\x0c'

/-- JS `String.prototype.trim` on the character list. -/
def jsTrim (l : List Char) : List Char :=
  ((l.dropWhile isJsSpace).reverse.dropWhile isJsSpace).reverse

/-- JS `s.trim()`. -/
def jsTrimS (s : String) : String := String.mk (jsTrim s.data)

/-- JS `Array.prototype.join(sep)`. -/
def joinWith (sep : String) : List String → String
  | [] => ""
  | [x] => x
  | x :: xs => x ++ sep ++ joinWith sep xs

/-- JS `s.replace(pat, rep)` with a *string* pattern: replaces only the
first occurrence, scanning left to right. -/
def replaceFirst (pat rep : List Char) : List Char → List Char
  | [] => []
  | c :: cs =>
      if pat.isPrefixOf (c :: cs) then rep ++ (c :: cs).drop pat.length
      else c :: replaceFirst pat rep cs

/-! ### The `/#X connect \d+ \d+/g` match counter (openai.ts:100-103) -/

/-- The literal part `"#X connect "` of the regex `/#X connect \d+ \d+/`. -/
def connectLit : List Char := "#X connect ".data

/-- The literal `"#X connect"` tested by `patch.includes('#X connect')`
and counted by App.tsx's `result.patch.match(/#X connect/g)`. -/
def connectPlainLit : List Char := "#X connect".data

/-- Try to match the regex `#X connect \d+ \d+` at the head of `cs`;
on success return the suffix after the (greedy) match, as the JS engine
leaves `lastIndex` after the final digit run. -/
def matchConnectAt (cs : List Char) : Option (List Char) :=
  if connectLit.isPrefixOf cs then
    match cs.drop connectLit.length with
    | [] => none
    | d1 :: t1 =>
      if d1.isDigit then
        match t1.dropWhile Char.isDigit with
        | ' ' :: r2 =>
          match r2 with
          | [] => none
          | d2 :: t2 => if d2.isDigit then some (t2.dropWhile Char.isDigit) else none
        | _ => none
      else none
  else none

/-- Count the non-overlapping matches of `/#X connect \d+ \d+/g`, scanning
left to right and restarting after each match, exactly as `String.match`
with the global flag does.  Fuel-structural; `countConnect` supplies
`l.length`, which is always sufficient. -/
def countConnectGo : Nat → List Char → Nat
  | 0, _ => 0
  | _ + 1, [] => 0
  | fuel + 1, c :: cs =>
      match matchConnectAt (c :: cs) with
      | some rest => 1 + countConnectGo fuel rest
      | none => countConnectGo fuel cs

/-- `(patch.match(/#X connect \d+ \d+/g) || []).length`. -/
def countConnect (l : List Char) : Nat := countConnectGo l.length l

/-- Count the non-overlapping occurrences of the literal `"#X connect"`:
`(result.patch.match(/#X connect/g) || []).length` in App.tsx:1447. -/
def countConnectPlainGo : Nat → List Char → Nat
  | 0, _ => 0
  | _ + 1, [] => 0
  | fuel + 1, c :: cs =>
      if connectPlainLit.isPrefixOf (c :: cs) then
        1 + countConnectPlainGo fuel ((c :: cs).drop connectPlainLit.length)
      else countConnectPlainGo fuel cs

/-- `(result.patch.match(/#X connect/g) || []).length`. -/
def countConnectPlain (l : List Char) : Nat := countConnectPlainGo l.length l

/-! ### The Structural Validator (openai.ts:86-106) -/

/-- The `validation` object literal of openai.ts:86-106: one Bool per
predicate, in source (insertion) order. -/
structure Validation where
  hasStartToggle : Bool
  hasDac : Bool
  hasVolumeControl : Bool
  hasVuMeter : Bool
  hasInstructions : Bool
  hasLoadBang : Bool
  hasMetro : Bool
  hasConnections : Bool
  hasAudioChain : Bool
  hasProperConnections : Bool
  hasSafeVolume : Bool
deriving Repr, DecidableEq

/-- openai.ts:86-106, predicate for predicate. -/
def validation (patch : String) : Validation :=
  { hasStartToggle := includes patch "tgl 15 0" && includes patch "START"
    hasDac := includes patch "dac~"
    hasVolumeControl := includes patch "*~ 0.5" || includes patch "*~ 0.25"
    hasVuMeter := includes patch "vu 15 120"
    hasInstructions := includes patch "cnv 15" && includes patch "text"
    hasLoadBang := includes patch "loadbang"
    hasMetro := includes patch "metro"
    hasConnections := includes patch "#X connect"
    hasAudioChain := (includes patch "osc~" || includes patch "phasor~" || includes patch "noise~")
      && includes patch "*~" && includes patch "clip~" && includes patch "dac~"
    hasProperConnections := decide (6 ≤ countConnect patch.data)
    hasSafeVolume := includes patch "*~ 0.5" || includes patch "*~ 0.25" || includes patch "*~ 0.1" }

/-- `Object.entries(validation)` — key/value pairs in insertion order. -/
def validationEntries (v : Validation) : List (String × Bool) :=
  [("hasStartToggle", v.hasStartToggle),
   ("hasDac", v.hasDac),
   ("hasVolumeControl", v.hasVolumeControl),
   ("hasVuMeter", v.hasVuMeter),
   ("hasInstructions", v.hasInstructions),
   ("hasLoadBang", v.hasLoadBang),
   ("hasMetro", v.hasMetro),
   ("hasConnections", v.hasConnections),
   ("hasAudioChain", v.hasAudioChain),
   ("hasProperConnections", v.hasProperConnections),
   ("hasSafeVolume", v.hasSafeVolume)]

/-- `Object.values(validation)` — values in insertion order. -/
def validationValues (v : Validation) : List Bool := (validationEntries v).map Prod.snd

/-- `component.replace('has', '')` (openai.ts:112). -/
def stripHas (s : String) : String := String.mk (replaceFirst "has".data [] s.data)

/-- openai.ts:110-113: names of the failed predicates, `'has'` stripped,
joined with `', '`. -/
def missingComponents (v : Validation) : String :=
  joinWith ", " (((validationEntries v).filter (fun p => !p.2)).map (fun p => stripHas p.1))

/-- The feedback string injected into the repair attempt (openai.ts:118). -/
def feedbackText (v : Validation) : String :=
  "Please include missing components: " ++ missingComponents v

/-! ### The Response Splitter (openai.ts:79-83) -/

/-- The first section marker of `/---PATCH---|---EXPLANATION---/`. -/
def patchMarker : List Char := "---PATCH---".data

/-- The second section marker of `/---PATCH---|---EXPLANATION---/`. -/
def explMarker : List Char := "---EXPLANATION---".data

/-- `content.split(/---PATCH---|---EXPLANATION---/)`: scan left to right,
cutting at every non-overlapping occurrence of either marker (the JS engine
tries the alternatives in order at each position; the two markers differ at
index 3, so at most one can match).  `acc` holds the current segment,
reversed.  Fuel-structural; the fuel (initialized to the input length) is
never exhausted because every step consumes at least one character. -/
def splitMarkersGo : Nat → List Char → List Char → List (List Char)
  | 0, acc, rest => [acc.reverse ++ rest]
  | _ + 1, acc, [] => [acc.reverse]
  | fuel + 1, acc, c :: cs =>
      if patchMarker.isPrefixOf (c :: cs) then
        acc.reverse :: splitMarkersGo fuel [] ((c :: cs).drop patchMarker.length)
      else if explMarker.isPrefixOf (c :: cs) then
        acc.reverse :: splitMarkersGo fuel [] ((c :: cs).drop explMarker.length)
      else splitMarkersGo fuel (c :: acc) cs

/-- `const parts = content.split(/---PATCH---|---EXPLANATION---/)`. -/
def responseParts (content : String) : List (List Char) :=
  splitMarkersGo content.data.length [] content.data

/-- The fence literal `"```pd"` of `/```pd\n?|\n?```/`. -/
def fencePd : List Char := "```pd".data

/-- The fence literal `"```"` of `/```pd\n?|\n?```/`. -/
def fence : List Char := "```".data

/-- `.replace(/```pd\n?|\n?```/g, '')`: delete every non-overlapping match,
scanning left to right; at each position the engine first tries
`"```pd"` followed by an optional newline, then an optional newline
followed by `"```"` (each `\n?` greedy).  Fuel-structural as above. -/
def stripFencesGo : Nat → List Char → List Char
  | 0, l => l
  | _ + 1, [] => []
  | fuel + 1, c :: cs =>
      if fencePd.isPrefixOf (c :: cs) then
        match (c :: cs).drop fencePd.length with
        | '\n' :: rest => stripFencesGo fuel rest
        | rest => stripFencesGo fuel rest
      else if c == '\n' && fence.isPrefixOf cs then
        stripFencesGo fuel (cs.drop fence.length)
      else if fence.isPrefixOf (c :: cs) then
        stripFencesGo fuel ((c :: cs).drop fence.length)
      else c :: stripFencesGo fuel cs

/-- `patch.replace(/```pd\n?|\n?```/g, '')`. -/
def stripFences (l : List Char) : List Char := stripFencesGo l.length l

/-- `const patch = parts[1]?.replace(/```pd\n?|\n?```/g, '') || ''`
(openai.ts:82): a missing segment degrades to the empty string. -/
def patchBody (content : String) : String :=
  String.mk (stripFences ((responseParts content).getD 1 []))

/-- `const explanation = parts[2] || ''` (openai.ts:83). -/
def explanationBody (content : String) : String :=
  String.mk ((responseParts content).getD 2 [])

/-! ### The Retry Controller (openai.ts:3-146) -/

/-- The catch block of openai.ts:129-145: reclassify the caught error.
Errors matching none of the four tests are re-thrown unchanged. -/
def classify (e : Err) : Err :=
  if e.message = "API_KEY_MISSING" then
    { message := "Please set your OpenAI API key in the settings to generate patches", status := none }
  else if e.message = "API_KEY_INVALID" then
    { message := "Invalid API key format. Please check your OpenAI API key", status := none }
  else if e.status = some 401 then
    { message := "Invalid API key. Please check your OpenAI API key in settings", status := none }
  else if e.status = some 429 then
    { message := "API rate limit exceeded. Please try again later", status := none }
  else e

/-- Outcome of a `generatePdPatch` call: the resolved value or thrown error,
plus the trace of completion-client invocations (`calls`, by retry index)
and of validator runs (`reports`, patch body paired with its report). -/
structure GenOut where
  result : Except Err (String × String)
  calls : List Nat
  reports : List (String × Validation)

/-- `generatePdPatch` (openai.ts:3-146).  `apiKey` is the value of
`localStorage.getItem('openai_api_key')` (unchanged across the recursion);
`oracle i` is what the raced completion call delivers on the attempt with
`retryCount = i`.  The guard `if (!apiKey)` (line 6) is a JS truthiness
test, so both a null credential and a stored empty string are falsy and
throw `API_KEY_MISSING`; the model renders this as the `none` arm plus the
`key = ""` test.  The key checks (lines 6-12) run before the `try`, so
their errors reach the caller unclassified; the recursive repair call
(lines 116-120) runs *inside* the `try`, so errors bubbling out of it pass
through this invocation's catch block (`classify`).  The fuel (2 at the
top) bounds the recursion depth; it is never exhausted because the guard
`retryCount < 2` already caps the recursion, and the fallback arm returns
the same best-available result as the cap. -/
def generatePdPatchGo (fuel : Nat) (apiKey : Option String) (oracle : Nat → Except Err String)
    (prompt : String) (errorFeedback : Option String) (retryCount : Nat) : GenOut :=
  match apiKey with
  | none => { result := .error { message := "API_KEY_MISSING", status := none }, calls := [], reports := [] }
  | some key =>
    if key = "" then
      { result := .error { message := "API_KEY_MISSING", status := none }, calls := [], reports := [] }
    else if !(jsStartsWith key "sk-") then
      { result := .error { message := "API_KEY_INVALID", status := none }, calls := [], reports := [] }
    else
      match oracle retryCount with
      | .error e => { result := .error (classify e), calls := [retryCount], reports := [] }
      | .ok content =>
        let patch := patchBody content
        let explanation := explanationBody content
        let v := validation patch
        if decide (retryCount < 2) && (validationValues v).any (fun b => !b) then
          match fuel with
          | 0 =>
            { result := .ok (jsTrimS patch, jsTrimS explanation),
              calls := [retryCount], reports := [(patch, v)] }
          | fuel' + 1 =>
            let inner := generatePdPatchGo fuel' apiKey oracle prompt (some (feedbackText v)) (retryCount + 1)
            { result :=
                match inner.result with
                | .error e => .error (classify e)
                | .ok r => .ok r,
              calls := retryCount :: inner.calls,
              reports := (patch, v) :: inner.reports }
        else
          { result := .ok (jsTrimS patch, jsTrimS explanation),
            calls := [retryCount], reports := [(patch, v)] }

/-- `generatePdPatch(prompt, errorFeedback?, retryCount)`. -/
def generatePdPatch (apiKey : Option String) (oracle : Nat → Except Err String)
    (prompt : String) (errorFeedback : Option String) (retryCount : Nat) : GenOut :=
  generatePdPatchGo 2 apiKey oracle prompt errorFeedback retryCount

/-! ### The data model (types.ts) and the App slices (App.tsx) -/

/-- `metadata.audioChain` of `PdPatch` (types.ts:14-20). -/
structure AudioChainMeta where
  hasStartToggle : Bool
  hasDac : Bool
  hasVolumeControl : Bool
  hasVuMeter : Bool
  hasInstructions : Bool
deriving Repr, DecidableEq

/-- `metadata` of `PdPatch` (types.ts:8-21). -/
structure PatchMetadata where
  width : Nat
  height : Nat
  audioEnabled : Bool
  controlRate : Bool
  requiredObjects : List String
  audioChain : AudioChainMeta
deriving Repr, DecidableEq

/-- `regeneratedPatch` of an error-history entry (types.ts:25-29). -/
structure RegeneratedPatch where
  content : String
  explanation : String
  timestamp : Nat
deriving Repr, DecidableEq

/-- One entry of `errorHistory` (types.ts:22-30). -/
structure ErrorHistoryEntry where
  error : String
  timestamp : Nat
  regeneratedPatch : Option RegeneratedPatch
deriving Repr, DecidableEq

/-- `PdPatch` (types.ts:1-31).  Timestamps are abstracted to `Nat`;
`errorHistory` is optional in the TS interface. -/
structure PdPatch where
  name : String
  content : String
  explanation : String
  description : String
  created : Nat
  version : String
  metadata : PatchMetadata
  errorHistory : Option (List ErrorHistoryEntry)
deriving Repr, DecidableEq

/-- The App state touched by the two handlers, after one handler run:
`currentPatch`, `history`, and the message of `toast.error` if one fired. -/
structure AppResult where
  currentPatch : Option PdPatch
  history : List PdPatch
  toastError : Option String
deriving Repr, DecidableEq

/-- The `audioValidation` object of App.tsx:1443-1448. -/
structure AudioValidation where
  hasAudioSource : Bool
  hasVolume : Bool
  hasOutput : Bool
  hasConnections : Bool
deriving Repr, DecidableEq

/-- App.tsx:1443-1448, check for check. -/
def audioValidation (patch : String) : AudioValidation :=
  { hasAudioSource := includes patch "osc~" || includes patch "phasor~" || includes patch "noise~"
    hasVolume := includes patch "*~ 0.5" || includes patch "*~ 0.25"
    hasOutput := includes patch "dac~"
    hasConnections := decide (6 ≤ countConnectPlain patch.data) }

/-- `Object.values(audioValidation)` in insertion order. -/
def audioValidationValues (a : AudioValidation) : List Bool :=
  [a.hasAudioSource, a.hasVolume, a.hasOutput, a.hasConnections]

/-- The `newPatch` literal of App.tsx:1408-1440 (`Date.now()` and
`new Date()` abstracted to the single instant `now`). -/
def newPatchOf (prompt : String) (now : Nat) (r : String × String) : PdPatch :=
  { name := "patch_" ++ toString now
    content := r.1
    explanation := r.2
    description := prompt
    created := now
    version := "1.0"
    metadata :=
      { width := 520, height := 400, audioEnabled := true, controlRate := true
        requiredObjects := ["loadbang", "tgl", "metro", "osc~", "dac~", "*~", "clip~", "vu", "cnv"]
        audioChain :=
          { hasStartToggle := true, hasDac := true, hasVolumeControl := true
            hasVuMeter := true, hasInstructions := true } }
    errorHistory := some [] }

/-- The catch block of `handleGenerate` (App.tsx:1461-1467): errors whose
message mentions `'API key'` are toasted verbatim, others prefixed. -/
def toastFor (msg : String) : String :=
  if includes msg "API key" then msg else "Error: " ++ msg

/-- `handleGenerate` (App.tsx:1396-1471), restricted to the state it
mutates.  Note the guard of App.tsx:1450-1452: when the coarse audio
checks fail, the handler throws (and merely toasts) instead of storing
the returned patch. -/
def handleGenerate (apiKey : Option String) (oracle : Nat → Except Err String)
    (prompt : String) (now : Nat) (currentPatch : Option PdPatch)
    (history : List PdPatch) : AppResult :=
  if jsTrimS prompt = "" then
    { currentPatch := currentPatch, history := history, toastError := some "Please enter a prompt" }
  else
    match (generatePdPatch apiKey oracle prompt none 0).result with
    | .error e =>
      { currentPatch := currentPatch, history := history, toastError := some (toastFor e.message) }
    | .ok r =>
      let newPatch := newPatchOf prompt now r
      if !((audioValidationValues (audioValidation r.1)).all (fun b => b)) then
        { currentPatch := currentPatch, history := history,
          toastError := some (toastFor "Generated patch is missing critical audio components") }
      else
        { currentPatch := some newPatch, history := newPatch :: history, toastError := none }

/-- The `updatedPatch` literal of App.tsx:1498-1512: the regeneration
entry is prepended to the (possibly absent) prior `errorHistory`;
every other field of the patch is spread unchanged. -/
def regenUpdatedPatch (cp : PdPatch) (errorMessage : String) (now : Nat)
    (r : String × String) : PdPatch :=
  { cp with
    errorHistory := some
      ({ error := errorMessage, timestamp := now,
         regeneratedPatch := some { content := r.1, explanation := r.2, timestamp := now } }
        :: cp.errorHistory.getD []) }

/-- `handleRegenerate` (App.tsx:1488-1531), restricted to the state it
mutates. -/
def handleRegenerate (apiKey : Option String) (oracle : Nat → Except Err String)
    (errorMessage : String) (now : Nat) (currentPatch : Option PdPatch)
    (history : List PdPatch) : AppResult :=
  match currentPatch with
  | none => { currentPatch := none, history := history, toastError := none }
  | some cp =>
    match (generatePdPatch apiKey oracle cp.description (some errorMessage) 0).result with
    | .error _ =>
      { currentPatch := some cp, history := history, toastError := some "Failed to regenerate patch" }
    | .ok r =>
      let updatedPatch := regenUpdatedPatch cp errorMessage now r
      { currentPatch := some updatedPatch,
        history := history.map (fun p => if p.name = cp.name then updatedPatch else p),
        toastError := none }

/-! ### Helper lemmas -/

/-- A pattern occurring as a prefix occurs as a substring. -/
lemma hasInfix_of_isPrefixOf {pat l : List Char} (h : pat.isPrefixOf l = true) :
    hasInfix l pat = true := by
  cases l with
  | nil => cases pat with
    | nil => rfl
    | cons c cs => simp [List.isPrefixOf] at h
  | cons c cs => simp [hasInfix, h]

/-- Substring occurrence is preserved by extending the text on the left. -/
lemma hasInfix_cons {pat t : List Char} (c : Char) (h : hasInfix t pat = true) :
    hasInfix (c :: t) pat = true := by
  simp [hasInfix, h]

/-- `dropWhile` never lengthens a list. -/
lemma dropWhile_len_le (p : Char → Bool) (l : List Char) :
    (l.dropWhile p).length ≤ l.length := by
  induction l with
  | nil => simp
  | cons c cs ih =>
    by_cases h : p c
    · simpa [List.dropWhile, h] using Nat.le_succ_of_le ih
    · simp [List.dropWhile, h]

/-- A successful `matchConnectAt` starts with the literal `"#X connect "`
and strictly shortens the text. -/
lemma matchConnectAt_some {l rest : List Char} (h : matchConnectAt l = some rest) :
    connectLit.isPrefixOf l = true ∧ rest.length < l.length := by
  unfold matchConnectAt at h
  split at h
  case isFalse => exact absurd h (by simp)
  case isTrue hp =>
    refine ⟨hp, ?_⟩
    have hlen : connectLit.length ≤ l.length :=
      (List.isPrefixOf_iff_prefix.mp hp).length_le
    have hcl : connectLit.length = 11 := by decide
    split at h
    case _ hd => exact absurd h (by simp)
    case _ d1 t1 hd =>
      have ht1 : t1.length = l.length - connectLit.length - 1 := by
        have := congrArg List.length hd
        simp [List.length_drop] at this
        omega
      split at h
      case isFalse => exact absurd h (by simp)
      case isTrue hd1 =>
        have hw_le : (t1.dropWhile Char.isDigit).length ≤ t1.length :=
          dropWhile_len_le _ _
        split at h
        case _ r2 hw =>
          rw [hw] at hw_le
          split at h
          case _ => exact absurd h (by simp)
          case _ d2 t2 =>
            split at h
            case isFalse => exact absurd h (by simp)
            case isTrue hd2 =>
              have hrest : rest = t2.dropWhile Char.isDigit := by
                simpa using h.symm
              have h2 : (t2.dropWhile Char.isDigit).length ≤ t2.length :=
                dropWhile_len_le _ _
              rw [← hrest] at h2
              simp at hw_le
              omega
        case _ hne hw => exact absurd h (by simp)

/-- A positive `/#X connect \d+ \d+/` match count forces a literal
`"#X connect"` occurrence. -/
lemma countConnectGo_pos {fuel : Nat} : ∀ {l : List Char}, l.length ≤ fuel →
    0 < countConnectGo fuel l → hasInfix l connectPlainLit = true := by
  induction fuel with
  | zero => intro l hl hpos; simp [countConnectGo] at hpos
  | succ n ih =>
    intro l hl hpos
    match l with
    | [] => simp [countConnectGo] at hpos
    | c :: cs =>
      rw [countConnectGo] at hpos
      rcases hm : matchConnectAt (c :: cs) with _ | rest
      · rw [hm] at hpos
        have : hasInfix cs connectPlainLit = true := by
          refine ih ?_ hpos
          simpa using Nat.lt_succ_iff.mp (Nat.lt_of_lt_of_le (by simp) hl)
        exact hasInfix_cons c this
      · have hpre : connectLit.isPrefixOf (c :: cs) = true := (matchConnectAt_some hm).1
        have hsub : connectPlainLit <+: connectLit := ⟨[' '], by decide⟩
        have : connectPlainLit.isPrefixOf (c :: cs) = true :=
          List.isPrefixOf_iff_prefix.mpr (hsub.trans (List.isPrefixOf_iff_prefix.mp hpre))
        exact hasInfix_of_isPrefixOf this

/-- When neither section marker occurs, the splitter returns the whole
input as its single segment. -/
lemma splitMarkersGo_no_marker : ∀ (fuel : Nat) (rest acc : List Char),
    rest.length ≤ fuel → hasInfix rest patchMarker = false →
    hasInfix rest explMarker = false →
    splitMarkersGo fuel acc rest = [acc.reverse ++ rest] := by
  intro fuel
  induction fuel with
  | zero => intro rest acc _ _ _; rfl
  | succ n ih =>
    intro rest acc hl hpm hem
    match rest with
    | [] => simp [splitMarkersGo]
    | c :: cs =>
      rw [hasInfix, Bool.or_eq_false_iff] at hpm hem
      rw [splitMarkersGo, if_neg (by simp [hpm.1]), if_neg (by simp [hem.1]),
        ih cs (c :: acc) (by simpa using Nat.lt_succ_iff.mp (Nat.lt_of_lt_of_le (by simp) hl))
          hpm.2 hem.2]
      simp

/-- Every report traced by `generatePdPatchGo` is the validator applied to
the traced patch body: the report is a function of the body text alone. -/
lemma generatePdPatchGo_reports {fuel : Nat} :
    ∀ {apiKey oracle prompt fb rc b r},
    (b, r) ∈ (generatePdPatchGo fuel apiKey oracle prompt fb rc).reports →
    r = validation b := by
  induction fuel with
  | zero =>
    intro apiKey oracle prompt fb rc b r hmem
    unfold generatePdPatchGo at hmem
    split at hmem
    · simp at hmem
    · split at hmem
      · simp at hmem
      · split at hmem
        · simp at hmem
        · split at hmem
          · simp at hmem
          · dsimp only at hmem
            split at hmem <;> simp_all
  | succ n ih =>
    intro apiKey oracle prompt fb rc b r hmem
    unfold generatePdPatchGo at hmem
    split at hmem
    · simp at hmem
    · split at hmem
      · simp at hmem
      · split at hmem
        · simp at hmem
        · split at hmem
          · simp at hmem
          · dsimp only at hmem
            split at hmem
            · simp only [List.mem_cons] at hmem
              rcases hmem with h | h
              · simp_all
              · exact ih h
            · simp_all

/-- When the raced completion succeeds on every attempt, `generatePdPatchGo`
resolves with a result (it never rejects). -/
lemma generatePdPatchGo_ok : ∀ (fuel : Nat) (key : String)
    (oracle : Nat → Except Err String) (prompt : String) (fb : Option String) (rc : Nat),
    jsStartsWith key "sk-" = true → (∀ i, ∃ c, oracle i = .ok c) →
    ∃ r, (generatePdPatchGo fuel (some key) oracle prompt fb rc).result = .ok r := by
  intro fuel
  induction fuel with
  | zero =>
    intro key oracle prompt fb rc hk ho
    obtain ⟨c, hc⟩ := ho rc
    rw [generatePdPatchGo.eq_def]
    dsimp only
    have hne : ¬key = "" := by
      intro h
      subst h
      exact absurd hk (by decide)
    rw [if_neg hne, hk, hc]
    dsimp only [Bool.not_true]
    rw [if_neg (by simp)]
    split <;> exact ⟨_, rfl⟩
  | succ n ih =>
    intro key oracle prompt fb rc hk ho
    obtain ⟨c, hc⟩ := ho rc
    rw [generatePdPatchGo.eq_def]
    dsimp only
    have hne : ¬key = "" := by
      intro h
      subst h
      exact absurd hk (by decide)
    rw [if_neg hne, hk, hc]
    dsimp only [Bool.not_true]
    rw [if_neg (by simp)]
    split
    case isTrue =>
      obtain ⟨r, hr⟩ := ih key oracle prompt
        (some (feedbackText (validation (patchBody c)))) (rc + 1) hk ho
      exact ⟨r, by rw [hr]⟩
    case isFalse => exact ⟨_, rfl⟩

/-- Trace bounds for `generatePdPatchGo`: starting from `rc ≤ 2`, at most
`3 - rc` completion calls are made and every traced retry index is ≤ 2. -/
lemma generatePdPatchGo_calls : ∀ (fuel : Nat) (apiKey : Option String)
    (oracle : Nat → Except Err String) (prompt : String) (fb : Option String) (rc : Nat),
    rc ≤ 2 →
    (generatePdPatchGo fuel apiKey oracle prompt fb rc).calls.length ≤ 3 - rc ∧
    ∀ a ∈ (generatePdPatchGo fuel apiKey oracle prompt fb rc).calls, a ≤ 2 := by
  intro fuel
  induction fuel with
  | zero =>
    intro apiKey oracle prompt fb rc hrc
    rw [generatePdPatchGo.eq_def]
    cases apiKey with
    | none => simp
    | some key =>
      dsimp only
      by_cases hke : key = ""
      case pos => rw [if_pos hke]; simp
      case neg =>
      rw [if_neg hke]
      by_cases hk : jsStartsWith key "sk-"
      · rw [if_neg (by simp [hk])]
        cases hor : oracle rc with
        | error e => refine ⟨?_, ?_⟩ <;> simp <;> omega
        | ok content =>
          dsimp only
          split <;> refine ⟨?_, ?_⟩ <;> simp <;> omega
      · rw [if_pos (by simp [hk])]
        simp
  | succ n ih =>
    intro apiKey oracle prompt fb rc hrc
    rw [generatePdPatchGo.eq_def]
    cases apiKey with
    | none => simp
    | some key =>
      dsimp only
      by_cases hke : key = ""
      case pos => rw [if_pos hke]; simp
      case neg =>
      rw [if_neg hke]
      by_cases hk : jsStartsWith key "sk-"
      · rw [if_neg (by simp [hk])]
        cases hor : oracle rc with
        | error e => refine ⟨?_, ?_⟩ <;> simp <;> omega
        | ok content =>
          dsimp only
          split
          · rename_i hguard
            have hrc2 : rc < 2 := by
              simp only [Bool.and_eq_true, decide_eq_true_eq] at hguard
              exact hguard.1
            have hins := ih (some key) oracle prompt
              (some (feedbackText (validation (patchBody content)))) (rc + 1)
              (by omega)
            have h1 := hins.1
            refine ⟨?_, ?_⟩
            · simp only [List.length_cons]
              omega
            · intro a ha
              simp only [List.mem_cons] at ha
              rcases ha with rfl | h
              · omega
              · exact hins.2 a h
          · refine ⟨?_, ?_⟩ <;> simp <;> omega
      · rw [if_pos (by simp [hk])]
        simp

/-- Reclassification is idempotent: an error already produced by the catch
block of one (recursive) invocation passes through every enclosing catch
block unchanged. -/
lemma classify_idem (e : Err) : classify (classify e) = classify e := by
  by_cases h1 : e.message = "API_KEY_MISSING"
  · have hc : classify e
        = { message := "Please set your OpenAI API key in the settings to generate patches",
            status := none } := by
      simp only [classify]
      rw [if_pos h1]
    rw [hc]
    decide
  · by_cases h2 : e.message = "API_KEY_INVALID"
    · have hc : classify e
          = { message := "Invalid API key format. Please check your OpenAI API key",
              status := none } := by
        simp only [classify]
        rw [if_neg h1, if_pos h2]
      rw [hc]
      decide
    · by_cases h3 : e.status = some 401
      · have hc : classify e
            = { message := "Invalid API key. Please check your OpenAI API key in settings",
                status := none } := by
          simp only [classify]
          rw [if_neg h1, if_neg h2, if_pos h3]
        rw [hc]
        decide
      · by_cases h4 : e.status = some 429
        · have hc : classify e
              = { message := "API rate limit exceeded. Please try again later",
                  status := none } := by
            simp only [classify]
            rw [if_neg h1, if_neg h2, if_neg h3, if_pos h4]
          rw [hc]
          decide
        · have hc : classify e = e := by
            simp only [classify]
            rw [if_neg h1, if_neg h2, if_neg h3, if_neg h4]
          rw [hc]
          exact hc

/-! ### Concrete fixtures for witnesses and counterexamples -/

/-- An oracle whose completion always carries a patch body failing every
predicate (`"hello"`). -/
def oracleHello : Nat → Except Err String :=
  fun _ => .ok "---PATCH---hello---EXPLANATION---x"

/-- An oracle whose completion always fails with a server error. -/
def oracleBoom : Nat → Except Err String :=
  fun _ => .error { message := "boom", status := some 500 }

/-- A report in which exactly `hasVuMeter` and `hasProperConnections`
fail (the §8 Scenario B shape). -/
def reportB : Validation :=
  { hasStartToggle := true, hasDac := true, hasVolumeControl := true, hasVuMeter := false,
    hasInstructions := true, hasLoadBang := true, hasMetro := true, hasConnections := true,
    hasAudioChain := true, hasProperConnections := false, hasSafeVolume := true }

/-- A stored patch carrying one prior error-history entry. -/
def patchA : PdPatch :=
  { name := "patch_1", content := "c0", explanation := "e0", description := "make a beep",
    created := 1, version := "1.0",
    metadata :=
      { width := 520, height := 400, audioEnabled := true, controlRate := true,
        requiredObjects := [],
        audioChain :=
          { hasStartToggle := true, hasDac := true, hasVolumeControl := true,
            hasVuMeter := true, hasInstructions := true } },
    errorHistory := some [{ error := "old", timestamp := 0, regeneratedPatch := none }] }

/-- A patch body satisfying `hasProperConnections`, `hasVolumeControl`
and `hasAudioChain`. -/
def patchGood : String :=
  "osc~ *~ 0.5 clip~ dac~ #X connect 0 0 #X connect 1 0 #X connect 2 0 #X connect 3 0 #X connect 4 0 #X connect 5 0"

/-! ### The claims -/

/-- C1 (counterexample): the ValidationReport does *not* have exactly 10
predicate keys — on the empty patch body (as on every other) it has 11
(`hasSafeVolume` is an eleventh key beside the ten of §4.4). -/
theorem C1_counterexample :
    (validationEntries (validation "")).length = 11 ∧
    ¬(validationEntries (validation "")).length = 10 := by decide

/-- C1 (amended): for every patch-body text, the ValidationReport contains
exactly the 11 fixed predicate keys — the ten of §4.4 plus `hasSafeVolume`
— no more and no fewer, all computed on every run. -/
theorem C1_amended :
    ∀ patch : String,
    (validationEntries (validation patch)).map Prod.fst
      = ["hasStartToggle", "hasDac", "hasVolumeControl", "hasVuMeter", "hasInstructions",
         "hasLoadBang", "hasMetro", "hasConnections", "hasAudioChain", "hasProperConnections",
         "hasSafeVolume"]
    ∧ (validationEntries (validation patch)).length = 11 :=
  fun _ => ⟨rfl, rfl⟩

/-- C2 (counterexample): with a completion whose patch body `"hello"` fails
every predicate, the retry loop exhausts its 3 attempts and
`generatePdPatch` still resolves with a patch — but the caller
(`handleGenerate`) raises on its own audio check, so no Patch is stored in
the History and an error is surfaced instead, refuting the claim. -/
theorem C2_counterexample :
    (generatePdPatch (some "sk-a") oracleHello "p" none 0).result = .ok ("hello", "x")
    ∧ (generatePdPatch (some "sk-a") oracleHello "p" none 0).calls = [0, 1, 2]
    ∧ ((validationValues (validation "hello")).any (fun b => !b)) = true
    ∧ (handleGenerate (some "sk-a") oracleHello "p" 5 none []).history = []
    ∧ (handleGenerate (some "sk-a") oracleHello "p" 5 none []).toastError
        = some "Error: Generated patch is missing critical audio components" :=
  ⟨rfl, rfl, rfl, rfl, rfl⟩

/-- C2 (amended): when the retry loop exhausts its attempts with predicates
still failing, `generatePdPatch` itself still resolves with a Patch rather
than an error; the caller stores that Patch in the History only when its
own coarse audio checks all pass — otherwise it raises
'Generated patch is missing critical audio components' and the History is
unchanged. -/
theorem C2_amended :
    (∀ (key : String) (oracle : Nat → Except Err String) (prompt : String) (fb : Option String),
       jsStartsWith key "sk-" = true → (∀ i, ∃ c, oracle i = .ok c) →
       ∃ r, (generatePdPatch (some key) oracle prompt fb 0).result = .ok r)
    ∧ (∀ (apiKey : Option String) (oracle : Nat → Except Err String) (prompt : String)
         (now : Nat) (cp : Option PdPatch) (hist : List PdPatch) (r : String × String),
       ¬jsTrimS prompt = "" →
       (generatePdPatch apiKey oracle prompt none 0).result = .ok r →
       handleGenerate apiKey oracle prompt now cp hist
         = if (audioValidationValues (audioValidation r.1)).all (fun b => b) then
             { currentPatch := some (newPatchOf prompt now r),
               history := newPatchOf prompt now r :: hist, toastError := none }
           else
             { currentPatch := cp, history := hist,
               toastError := some "Error: Generated patch is missing critical audio components" }) := by
  constructor
  · intro key oracle prompt fb hk ho
    exact generatePdPatchGo_ok 2 key oracle prompt fb 0 hk ho
  · intro apiKey oracle prompt now cp hist r hp hr
    by_cases hall : (audioValidationValues (audioValidation r.1)).all (fun b => b) = true
    · rw [if_pos hall]
      simp only [handleGenerate]
      rw [if_neg hp, hr]
      dsimp only
      rw [hall]
      rfl
    · have hall' : (audioValidationValues (audioValidation r.1)).all (fun b => b) = false := by
        revert hall
        cases (audioValidationValues (audioValidation r.1)).all (fun b => b) <;> simp
      rw [if_neg hall]
      simp only [handleGenerate]
      rw [if_neg hp, hr]
      dsimp only
      rw [hall']
      rfl

/-- C2 (amended) at concrete inputs. -/
theorem C2_amended_witness :
    (∃ r, (generatePdPatch (some "sk-a") oracleHello "p" none 0).result = .ok r)
    ∧ handleGenerate (some "sk-a") oracleHello "p" 5 none []
        = if (audioValidationValues (audioValidation (("hello", "x") : String × String).1)).all
              (fun b => b) then
            { currentPatch := some (newPatchOf "p" 5 ("hello", "x")),
              history := newPatchOf "p" 5 ("hello", "x") :: [], toastError := none }
          else
            { currentPatch := none, history := [],
              toastError := some "Error: Generated patch is missing critical audio components" } :=
  ⟨C2_amended.1 "sk-a" oracleHello "p" none rfl (fun _ => ⟨_, rfl⟩),
   C2_amended.2 (some "sk-a") oracleHello "p" 5 none [] ("hello", "x") (by decide) rfl⟩

/-- C3: for every top-level generation call (`retryCount = 0`), at most 3
completion-client calls are made and every retry index the client is
invoked with lies in the closed range [0, 2].  (Termination is inherent:
the embedding is a total function.) -/
theorem C3_attempt_bound :
    ∀ (apiKey : Option String) (oracle : Nat → Except Err String) (prompt : String)
      (fb : Option String),
    (generatePdPatch apiKey oracle prompt fb 0).calls.length ≤ 3
    ∧ ∀ a ∈ (generatePdPatch apiKey oracle prompt fb 0).calls, a ≤ 2 := by
  intro apiKey oracle prompt fb
  have h := generatePdPatchGo_calls 2 apiKey oracle prompt fb 0 (by omega)
  exact ⟨by simpa using h.1, h.2⟩

/-- C3 at concrete inputs. -/
theorem C3_attempt_bound_witness :
    (generatePdPatch (some "sk-a") oracleHello "p" none 0).calls.length ≤ 3
    ∧ ∀ a ∈ (generatePdPatch (some "sk-a") oracleHello "p" none 0).calls, a ≤ 2 :=
  C3_attempt_bound (some "sk-a") oracleHello "p" none

/-- C4: a completion-client failure on any attempt aborts the cycle at
once — exactly one client call is traced, the validator never runs, no
repair attempt is issued — and the error (as classified by the catch
block) reaches the caller; reclassification is idempotent, so enclosing
catch blocks of outer recursive invocations pass it through unchanged. -/
theorem C4_client_error_aborts :
    (∀ (key : String) (oracle : Nat → Except Err String) (prompt : String)
       (fb : Option String) (rc : Nat) (e : Err),
       jsStartsWith key "sk-" = true → oracle rc = .error e →
       (generatePdPatch (some key) oracle prompt fb rc).result = .error (classify e)
       ∧ (generatePdPatch (some key) oracle prompt fb rc).calls = [rc]
       ∧ (generatePdPatch (some key) oracle prompt fb rc).reports = [])
    ∧ ∀ e : Err, classify (classify e) = classify e := by
  constructor
  · intro key oracle prompt fb rc e hk ho
    unfold generatePdPatch
    rw [generatePdPatchGo.eq_def]
    dsimp only
    have hne : ¬key = "" := by
      intro h
      subst h
      exact absurd hk (by decide)
    rw [if_neg hne, if_neg (by simp [hk]), ho]
    exact ⟨rfl, rfl, rfl⟩
  · exact classify_idem

/-- C4 at concrete inputs. -/
theorem C4_client_error_aborts_witness :
    ((generatePdPatch (some "sk-a") oracleBoom "p" none 0).result
        = .error (classify { message := "boom", status := some 500 })
      ∧ (generatePdPatch (some "sk-a") oracleBoom "p" none 0).calls = [0]
      ∧ (generatePdPatch (some "sk-a") oracleBoom "p" none 0).reports = [])
    ∧ classify (classify { message := "t", status := none })
        = classify { message := "t", status := none } :=
  ⟨C4_client_error_aborts.1 "sk-a" oracleBoom "p" none 0
      { message := "boom", status := some 500 } rfl rfl,
   C4_client_error_aborts.2 { message := "t", status := none }⟩

/-- C5: the Structural Validator is pure — whenever two runs of the
pipeline (under any credentials, oracles, prompts, feedback and attempt
counts) validate the same patch-body text, the traced reports are
identical. -/
theorem C5_validator_pure :
    ∀ (k₁ k₂ : Option String) (o₁ o₂ : Nat → Except Err String) (p₁ p₂ : String)
      (f₁ f₂ : Option String) (rc₁ rc₂ : Nat) (body : String) (r₁ r₂ : Validation),
    (body, r₁) ∈ (generatePdPatch k₁ o₁ p₁ f₁ rc₁).reports →
    (body, r₂) ∈ (generatePdPatch k₂ o₂ p₂ f₂ rc₂).reports →
    r₁ = r₂ := by
  intro k₁ k₂ o₁ o₂ p₁ p₂ f₁ f₂ rc₁ rc₂ body r₁ r₂ h1 h2
  exact (generatePdPatchGo_reports h1).trans (generatePdPatchGo_reports h2).symm

/-- C5 at concrete inputs: two runs differing in credential, prompt,
feedback and attempt count validate the body `"hello"` identically. -/
theorem C5_validator_pure_witness :
    ({ hasStartToggle := false, hasDac := false, hasVolumeControl := false, hasVuMeter := false,
       hasInstructions := false, hasLoadBang := false, hasMetro := false, hasConnections := false,
       hasAudioChain := false, hasProperConnections := false, hasSafeVolume := false } : Validation)
      = validation "hello" :=
  C5_validator_pure (some "sk-a") (some "sk-b") oracleHello oracleHello "p" "q" none (some "f")
    0 2 "hello" _ _ (by decide) (by decide)

/-- C6: the repair feedback lists exactly the failed predicates — a pair
of `Object.entries(validation)` survives the filter iff its value is
false — and in the Scenario B shape (exactly `hasVuMeter` and
`hasProperConnections` failing) the feedback text contains
"VuMeter, ProperConnections". -/
theorem C6_feedback_failed_predicates :
    (∀ (v : Validation) (p : String × Bool), p ∈ validationEntries v →
       (p ∈ (validationEntries v).filter (fun q => !q.2) ↔ p.2 = false))
    ∧ missingComponents reportB = "VuMeter, ProperConnections"
    ∧ includes (feedbackText reportB) "VuMeter, ProperConnections" = true := by
  refine ⟨?_, by decide, by decide⟩
  intro v p hp
  rcases p with ⟨k, b⟩
  cases b <;> simp [List.mem_filter, hp]

/-- C6 at concrete inputs. -/
theorem C6_feedback_failed_predicates_witness :
    ("hasVuMeter", false) ∈ (validationEntries reportB).filter (fun q => !q.2) ↔ false = false :=
  C6_feedback_failed_predicates.1 reportB ("hasVuMeter", false) (by decide)

/-- C7: a successful manual error-feedback regeneration prepends a new
entry (carrying the user's error text and a populated `regeneratedPatch`)
to the selected Patch's `errorHistory`, preserves all prior entries in
order, and leaves the Patch's `content` untouched. -/
theorem C7_error_history_prepend :
    ∀ (apiKey : Option String) (oracle : Nat → Except Err String) (errorMessage : String)
      (now : Nat) (cp : PdPatch) (hist : List PdPatch) (r : String × String),
    (generatePdPatch apiKey oracle cp.description (some errorMessage) 0).result = .ok r →
    (handleRegenerate apiKey oracle errorMessage now (some cp) hist).currentPatch
        = some (regenUpdatedPatch cp errorMessage now r)
    ∧ (regenUpdatedPatch cp errorMessage now r).errorHistory
        = some ({ error := errorMessage, timestamp := now,
                  regeneratedPatch := some { content := r.1, explanation := r.2, timestamp := now } }
            :: cp.errorHistory.getD [])
    ∧ (regenUpdatedPatch cp errorMessage now r).content = cp.content
    ∧ (handleRegenerate apiKey oracle errorMessage now (some cp) hist).history
        = hist.map (fun p => if p.name = cp.name then regenUpdatedPatch cp errorMessage now r else p)
    ∧ (handleRegenerate apiKey oracle errorMessage now (some cp) hist).toastError = none := by
  intro apiKey oracle errorMessage now cp hist r hr
  refine ⟨?_, rfl, rfl, ?_, ?_⟩ <;> (simp only [handleRegenerate]; rw [hr])

/-- C7 at concrete inputs: the prior entry of `patchA` survives, in place,
behind the new first entry. -/
theorem C7_error_history_prepend_witness :
    (handleRegenerate (some "sk-a") oracleHello "dac~ not connected" 7 (some patchA) [patchA]).currentPatch
        = some (regenUpdatedPatch patchA "dac~ not connected" 7 ("hello", "x"))
    ∧ (regenUpdatedPatch patchA "dac~ not connected" 7 ("hello", "x")).errorHistory
        = some ({ error := "dac~ not connected", timestamp := 7,
                  regeneratedPatch := some { content := "hello", explanation := "x", timestamp := 7 } }
            :: patchA.errorHistory.getD [])
    ∧ (regenUpdatedPatch patchA "dac~ not connected" 7 ("hello", "x")).content = patchA.content
    ∧ (handleRegenerate (some "sk-a") oracleHello "dac~ not connected" 7 (some patchA) [patchA]).history
        = [patchA].map (fun p => if p.name = patchA.name
            then regenUpdatedPatch patchA "dac~ not connected" 7 ("hello", "x") else p)
    ∧ (handleRegenerate (some "sk-a") oracleHello "dac~ not connected" 7 (some patchA) [patchA]).toastError
        = none :=
  C7_error_history_prepend (some "sk-a") oracleHello "dac~ not connected" 7 patchA [patchA]
    ("hello", "x") rfl

/-- C8 (counterexample): the stored empty-string credential lacks the
`sk-` prefix, yet the call rejects with `API_KEY_MISSING`, not
`API_KEY_INVALID` — the source's `if (!apiKey)` is a truthiness test and
the empty string is falsy, so it never reaches the prefix check. -/
theorem C8_counterexample :
    jsStartsWith "" "sk-" = false
    ∧ generatePdPatch (some "") oracleHello "p" none 0
        = { result := .error { message := "API_KEY_MISSING", status := none },
            calls := [], reports := [] }
    ∧ ¬(generatePdPatch (some "") oracleHello "p" none 0).result
        = .error { message := "API_KEY_INVALID", status := none } := by
  refine ⟨rfl, rfl, ?_⟩
  intro h
  have h2 : (generatePdPatch (some "") oracleHello "p" none 0).result
      = .error { message := "API_KEY_MISSING", status := none } := rfl
  rw [h2] at h
  simp at h

/-- C8 (amended): with no credential configured — a null credential or a
stored empty string, both falsy under the source's `if (!apiKey)` guard —
the call rejects with the `API_KEY_MISSING` classification and zero
completion calls; a nonempty credential lacking the literal `sk-` prefix
rejects with `API_KEY_INVALID`, likewise before any completion call. -/
theorem C8_missing_credential :
    (∀ (oracle : Nat → Except Err String) (prompt : String) (fb : Option String) (rc : Nat),
       generatePdPatch none oracle prompt fb rc
         = { result := .error { message := "API_KEY_MISSING", status := none },
             calls := [], reports := [] })
    ∧ (∀ (oracle : Nat → Except Err String) (prompt : String) (fb : Option String) (rc : Nat),
       generatePdPatch (some "") oracle prompt fb rc
         = { result := .error { message := "API_KEY_MISSING", status := none },
             calls := [], reports := [] })
    ∧ (∀ (key : String) (oracle : Nat → Except Err String) (prompt : String)
         (fb : Option String) (rc : Nat),
       ¬key = "" → jsStartsWith key "sk-" = false →
       generatePdPatch (some key) oracle prompt fb rc
         = { result := .error { message := "API_KEY_INVALID", status := none },
             calls := [], reports := [] }) := by
  refine ⟨fun oracle prompt fb rc => rfl, ?_, ?_⟩
  · intro oracle prompt fb rc
    unfold generatePdPatch
    rw [generatePdPatchGo.eq_def]
    dsimp only
    rw [if_pos rfl]
  · intro key oracle prompt fb rc hne h
    unfold generatePdPatch
    rw [generatePdPatchGo.eq_def]
    dsimp only
    rw [if_neg hne, if_pos (by simp [h])]

/-- C8 at concrete inputs. -/
theorem C8_missing_credential_witness :
    generatePdPatch (some "abc") oracleHello "p" none 0
      = { result := .error { message := "API_KEY_INVALID", status := none },
          calls := [], reports := [] } :=
  C8_missing_credential.2.2 "abc" oracleHello "p" none 0 (by decide) (by decide)

/-- C9: the Response Splitter is total (the embedding is a plain function)
and degrades gracefully: when neither marker occurs the whole completion
is the single segment and both the patch body and the explanation are the
empty string; whenever fewer than three segments arise (at most one marker
occurrence), the explanation is the empty string. -/
theorem C9_splitter_total :
    ∀ content : String,
    (hasInfix content.data patchMarker = false → hasInfix content.data explMarker = false →
      responseParts content = [content.data]
      ∧ patchBody content = "" ∧ explanationBody content = "")
    ∧ ((responseParts content).length ≤ 2 → explanationBody content = "") := by
  intro content
  constructor
  · intro hp he
    have h : splitMarkersGo content.data.length [] content.data = [content.data] := by
      simpa using splitMarkersGo_no_marker content.data.length content.data [] le_rfl hp he
    refine ⟨h, ?_, ?_⟩
    · unfold patchBody responseParts
      rw [h]
      rfl
    · unfold explanationBody responseParts
      rw [h]
      rfl
  · intro hlen
    unfold explanationBody
    rw [List.getD_eq_getElem?_getD, List.getElem?_eq_none hlen]
    rfl

/-- C9 at concrete inputs. -/
theorem C9_splitter_total_witness :
    (responseParts "abc" = ["abc".data]
      ∧ patchBody "abc" = "" ∧ explanationBody "abc" = "")
    ∧ explanationBody "abc" = "" :=
  ⟨(C9_splitter_total "abc").1 (by decide) (by decide),
   (C9_splitter_total "abc").2 (by decide)⟩

/-- C10: on every patch-body text, `hasProperConnections` implies
`hasConnections`, `hasVolumeControl` implies `hasSafeVolume`, and
`hasAudioChain` implies `hasDac`. -/
theorem C10_predicate_implications :
    ∀ patch : String,
    ((validation patch).hasProperConnections = true → (validation patch).hasConnections = true)
    ∧ ((validation patch).hasVolumeControl = true → (validation patch).hasSafeVolume = true)
    ∧ ((validation patch).hasAudioChain = true → (validation patch).hasDac = true) := by
  intro patch
  refine ⟨?_, ?_, ?_⟩
  · intro h
    simp only [validation] at h ⊢
    have h6 : 6 ≤ countConnect patch.data := of_decide_eq_true h
    have hpos : 0 < countConnectGo patch.data.length patch.data := by
      unfold countConnect at h6
      omega
    exact countConnectGo_pos le_rfl hpos
  · intro h
    simp only [validation] at h ⊢
    simp only [Bool.or_eq_true] at h ⊢
    tauto
  · intro h
    simp only [validation] at h ⊢
    simp only [Bool.and_eq_true] at h
    exact h.2

/-- C10 at concrete inputs. -/
theorem C10_predicate_implications_witness :
    (validation patchGood).hasConnections = true
    ∧ (validation patchGood).hasSafeVolume = true
    ∧ (validation patchGood).hasDac = true :=
  ⟨(C10_predicate_implications patchGood).1 (by decide),
   (C10_predicate_implications patchGood).2.1 (by decide),
   (C10_predicate_implications patchGood).2.2 (by decide)⟩

end PatchPd
